import Mathlib

/-!
Verification of the `IndustrialSimulator` class in `script.js` (browser 3D
production-line demo).  The simulator's mutable instance state is embedded as
the structure `Sim.SimState`; each method of the class becomes a Lean function
from state to state.  Environment primitives that the code consumes are passed
as explicit parameters:

* each `Math.random()` call becomes an explicit rational argument `r` with
  `0 ≤ r < 1`;
* `Math.sqrt` becomes a function parameter `sq : ℚ → ℚ` (its value is never
  needed exactly by the properties below);
* `Math.PI` becomes a rational parameter `piV`;
* `CANNON.World.step` becomes a parameter `stepFn : ℚ → Body → Body` applied to
  every body in the world, receiving the delta-time argument the code passes;
* the raycast result of a canvas click becomes an `Option Nat` (the id of the
  first intersected mesh, if any);
* DOM / console / alert effects are recorded in an `Effect` list where a claim
  needs them (dependency check), and dropped elsewhere (they never touch the
  instance state).

Number literals of the source (`0.05`, `-9.8`, ...) are read as exact
rationals.  THREE / CANNON handles owned by the scene and the world are
tracked by numeric ids allocated from the `nextId` counter; `scene.add` /
`scene.remove` append to / erase from an id list, mirroring the library's
add/remove-once semantics.
-/

namespace Sim

/-- A 3-vector (CANNON.Vec3 / THREE.Vector3). -/
structure Vec3 where
  x : ℚ
  y : ℚ
  z : ℚ
deriving DecidableEq, Repr

/-- A quaternion (CANNON.Quaternion / THREE.Quaternion). -/
structure Quat where
  qx : ℚ
  qy : ℚ
  qz : ℚ
  qw : ℚ
deriving DecidableEq, Repr

/-- The identity quaternion, the default orientation of a fresh body/mesh. -/
def Quat.ident : Quat := ⟨0, 0, 0, 1⟩

/-- Shape / geometry descriptors used by the spawn handlers. -/
inductive ShapeDesc where
  | box (extents : Vec3)
  | sphere (radius : ℚ)
  | cylinder (radiusTop radiusBottom height : ℚ) (segments : Nat)
  | plane
deriving DecidableEq, Repr

/-- A CANNON rigid body, at the granularity the repository code observes:
id (world handle), position, velocity, orientation, mass, its contact
material scalars, and the collision shape it was built with. -/
structure Body where
  id : Nat
  position : Vec3
  velocity : Vec3
  quaternion : Quat
  mass : ℚ
  friction : ℚ
  restitution : ℚ
  shape : ShapeDesc
deriving DecidableEq, Repr

/-- A THREE mesh, at the granularity the repository code observes. -/
structure Mesh where
  id : Nat
  position : Vec3
  quaternion : Quat
  colorHue : ℚ
  geom : ShapeDesc
deriving DecidableEq, Repr

/-- The `type` tag stored in each simulation-object entry. -/
inductive ObjType where
  | box
  | sphere
  | cylinder
deriving DecidableEq, Repr

/-- One entry of `this.objects`: `{ body, mesh, type, mass }`.  The two
handles are nullable JS references, embedded as `Option`. -/
structure SimObject where
  body : Option Body
  mesh : Option Mesh
  type : ObjType
  mass : ℚ
deriving DecidableEq, Repr

/-- The `type` tag of a vector-arrow entry. -/
inductive VType where
  | velocity
  | momentum
deriving DecidableEq, Repr

/-- A THREE.ArrowHelper as constructed by `updateVectors`. -/
structure Arrow where
  id : Nat
  dir : Vec3
  origin : Vec3
  len : ℚ
  color : Nat
deriving DecidableEq, Repr

/-- One entry of `this.vectors`: `{ arrow, type }`. -/
structure VectorEntry where
  arrow : Option Arrow
  type : VType
deriving DecidableEq, Repr

/-- The `this.config` record of slider-driven scalars. -/
structure Config where
  gravity : ℚ
  restitution : ℚ
  friction : ℚ
  mass : ℚ
  impulse : ℚ
  angularVelocity : ℚ
  rotation : ℚ
deriving DecidableEq, Repr

/-- The `this.robot` record.  `baseRotY` is `robot.base.rotation.y`, the only
field of the THREE group the code mutates. -/
structure Robot where
  baseRotY : ℚ
  targetAngle : ℚ
  currentAngle : ℚ
  isActive : Bool
deriving DecidableEq, Repr

/-- The `this.stats` record. -/
structure Stats where
  activeObjects : ℚ
  collisionCount : ℚ
  totalEnergy : ℚ
  maxVelocity : ℚ
  avgVelocity : ℚ
  currentAngle : ℚ
  angularAcceleration : ℚ
  damageReduction : ℚ
  trajectoryEfficiency : ℚ
deriving DecidableEq, Repr

/-- The whole mutable instance state of `IndustrialSimulator`.  `scene` and
`worldBodies` are the id sets held by the THREE scene and the CANNON world;
`worldPresent` is whether `this.world` is non-null (`setupPhysics` ran);
`nextId` is the allocator for fresh library handles. -/
structure SimState where
  scene : List Nat
  worldBodies : List Nat
  worldGravity : Vec3
  worldPresent : Bool
  objects : List SimObject
  vectors : List VectorEntry
  isRunning : Bool
  deltaTime : ℚ
  simulationTime : ℚ
  frameCount : Nat
  config : Config
  robot : Robot
  stats : Stats
  showVelocityVectors : Bool
  showMomentumVectors : Bool
  nextId : Nat
deriving DecidableEq, Repr

/-- Externally visible side effects recorded where a claim mentions them. -/
inductive Effect where
  | consoleError (msg : String)
  | alert (msg : String)
  | initCalled
deriving DecidableEq, Repr

/-- Squared norm `x*x + y*y + z*z`, as the source writes it. -/
def normSq (v : Vec3) : ℚ := v.x * v.x + v.y * v.y + v.z * v.z

/-- THREE.Vector3.normalize: divide by the length, or by 1 when the length is
zero.  `sq` is the `Math.sqrt` primitive. -/
def normalizeV (sq : ℚ → ℚ) (v : Vec3) : Vec3 :=
  let l := sq (normSq v)
  let d := if l = 0 then 1 else l
  ⟨v.x / d, v.y / d, v.z / d⟩

/-- Embedding of `Number.prototype.toFixed d`: rounding to `d` decimal digits
(the result stays numeric in this model). -/
def toFixedQ (d : Nat) (q : ℚ) : ℚ := (round (q * 10 ^ d) : ℤ) / 10 ^ d

/-- Embedding of `body.applyImpulse(imp, body.position)`: the lever arm is zero, so only
the linear velocity changes, by `invMass * imp` (invMass is 0 for a static
body). -/
def applyImpulseCenter (imp : Vec3) (b : Body) : Body :=
  if b.mass = 0 then b
  else
    { b with velocity :=
        ⟨b.velocity.x + imp.x / b.mass,
         b.velocity.y + imp.y / b.mass,
         b.velocity.z + imp.z / b.mass⟩ }

/-- The constructor's initial `config`. -/
def initialConfig : Config :=
  { gravity := -9.8
    restitution := 0.6
    friction := 0.3
    mass := 5
    impulse := 10
    angularVelocity := 2
    rotation := 45 }

/-- The constructor's initial `stats`: all zero. -/
def initialStats : Stats :=
  { activeObjects := 0
    collisionCount := 0
    totalEnergy := 0
    maxVelocity := 0
    avgVelocity := 0
    currentAngle := 0
    angularAcceleration := 0
    damageReduction := 0
    trajectoryEfficiency := 0 }

/-- The constructor's initial `robot` record. -/
def initialRobot : Robot :=
  { baseRotY := 0, targetAngle := 0, currentAngle := 0, isActive := false }

/-- The instance state as the constructor leaves it (before the asynchronous
`init` body runs: `this.world` is still null, the lists empty). -/
def initialState : SimState :=
  { scene := []
    worldBodies := []
    worldGravity := ⟨0, 0, 0⟩
    worldPresent := false
    objects := []
    vectors := []
    isRunning := false
    deltaTime := 1 / 60
    simulationTime := 0
    frameCount := 0
    config := initialConfig
    robot := initialRobot
    stats := initialStats
    showVelocityVectors := true
    showMomentumVectors := true
    nextId := 0 }

/-- Method `checkDependencies()`: returns whether both globals are loaded, emitting a
console error and an alert for the first missing one. -/
def checkDependencies (threeLoaded cannonLoaded : Bool) : Bool × List Effect :=
  if threeLoaded = false then
    (false, [Effect.consoleError "Three.js no está cargado",
             Effect.alert "Error: Three.js no está disponible"])
  else if cannonLoaded = false then
    (false, [Effect.consoleError "Cannon.js no está cargado",
             Effect.alert "Error: Cannon.js no está disponible"])
  else (true, [])

/-- The constructor: runs `checkDependencies`, discards its result, builds the
initial state, and unconditionally calls `this.init()` (recorded as the
`initCalled` effect). -/
def construct (threeLoaded cannonLoaded : Bool) : SimState × List Effect :=
  let chk := checkDependencies threeLoaded cannonLoaded
  (initialState, chk.2 ++ [Effect.initCalled])

/-- Method `play()`. -/
def play (s : SimState) : SimState := { s with isRunning := true }

/-- Method `pause()`. -/
def pause (s : SimState) : SimState := { s with isRunning := false }

/-- The random draws a spawn handler makes, in source order. -/
structure SpawnRand where
  rSize : ℚ
  rHeight : ℚ
  rHue : ℚ
  rPx : ℚ
  rPy : ℚ
  rPz : ℚ
  rIx : ℚ
  rIz : ℚ
deriving DecidableEq, Repr

/-- The random initial position every spawn handler uses. -/
def spawnPos (rnd : SpawnRand) : Vec3 :=
  ⟨(rnd.rPx - 0.5) * 15, 8 + rnd.rPy * 5, (rnd.rPz - 0.5) * 15⟩

/-- The random initial impulse every spawn handler applies. -/
def spawnImpulse (rnd : SpawnRand) : Vec3 :=
  ⟨(rnd.rIx - 0.5) * 5, 2, (rnd.rIz - 0.5) * 5⟩

/-- Common tail of the three spawn handlers: add the body to the world and
the mesh to the scene, push `{ body, mesh, type, mass }`, bump
`stats.activeObjects`, and apply the initial impulse to the (shared) body. -/
def pushSpawned (s : SimState) (body : Body) (mesh : Mesh) (t : ObjType)
    (rnd : SpawnRand) : SimState :=
  let body' := applyImpulseCenter (spawnImpulse rnd) body
  { s with
    worldBodies := s.worldBodies ++ [body.id]
    scene := s.scene ++ [mesh.id]
    objects := s.objects ++ [⟨some body', some mesh, t, s.config.mass⟩]
    stats := { s.stats with activeObjects := s.stats.activeObjects + 1 }
    nextId := s.nextId + 2 }

/-- Method `addBox()`. -/
def addBox (rnd : SpawnRand) (s : SimState) : SimState :=
  let size := 1 + rnd.rSize * 2
  let body : Body :=
    { id := s.nextId
      position := spawnPos rnd
      velocity := ⟨0, 0, 0⟩
      quaternion := Quat.ident
      mass := s.config.mass
      friction := s.config.friction
      restitution := s.config.restitution
      shape := .box ⟨size / 2, size / 2, size / 2⟩ }
  let mesh : Mesh :=
    { id := s.nextId + 1
      position := ⟨0, 0, 0⟩
      quaternion := Quat.ident
      colorHue := rnd.rHue
      geom := .box ⟨size, size, size⟩ }
  pushSpawned s body mesh .box rnd

/-- Method `addSphere()`. -/
def addSphere (rnd : SpawnRand) (s : SimState) : SimState :=
  let radius := 0.5 + rnd.rSize * 1
  let body : Body :=
    { id := s.nextId
      position := spawnPos rnd
      velocity := ⟨0, 0, 0⟩
      quaternion := Quat.ident
      mass := s.config.mass
      friction := s.config.friction
      restitution := s.config.restitution
      shape := .sphere radius }
  let mesh : Mesh :=
    { id := s.nextId + 1
      position := ⟨0, 0, 0⟩
      quaternion := Quat.ident
      colorHue := rnd.rHue
      geom := .sphere radius }
  pushSpawned s body mesh .sphere rnd

/-- Method `addCylinder()`. -/
def addCylinder (rnd : SpawnRand) (s : SimState) : SimState :=
  let radius := 0.3 + rnd.rSize * 0.8
  let height := 1 + rnd.rHeight * 2
  let body : Body :=
    { id := s.nextId
      position := spawnPos rnd
      velocity := ⟨0, 0, 0⟩
      quaternion := Quat.ident
      mass := s.config.mass
      friction := s.config.friction
      restitution := s.config.restitution
      shape := .cylinder radius radius height 8 }
  let mesh : Mesh :=
    { id := s.nextId + 1
      position := ⟨0, 0, 0⟩
      quaternion := Quat.ident
      colorHue := rnd.rHue
      geom := .cylinder radius radius height 16 }
  pushSpawned s body mesh .cylinder rnd

/-- One spawn-button press together with its random draws. -/
inductive SpawnOp where
  | box (rnd : SpawnRand)
  | sphere (rnd : SpawnRand)
  | cylinder (rnd : SpawnRand)
deriving DecidableEq, Repr

/-- Run one spawn operation. -/
def applySpawn : SpawnOp → SimState → SimState
  | .box rnd, s => addBox rnd s
  | .sphere rnd, s => addSphere rnd s
  | .cylinder rnd, s => addCylinder rnd s

/-- Run a sequence of spawn operations, first one first. -/
def applySpawns : List SpawnOp → SimState → SimState
  | [], s => s
  | op :: ops, s => applySpawns ops (applySpawn op s)

/-- Method `updateRobot()`: when active, recompute the target from
`config.rotation`, blend `currentAngle` 5% of the way toward it, write the
group rotation and the angle statistic. -/
def updateRobot (piV : ℚ) (s : SimState) : SimState :=
  if s.robot.isActive then
    let target := s.config.rotation * piV / 180
    let angleDiff := target - s.robot.currentAngle
    let cur := s.robot.currentAngle + angleDiff * 0.05
    { s with
      robot := { s.robot with targetAngle := target, currentAngle := cur,
                              baseRotY := cur }
      stats := { s.stats with currentAngle := toFixedQ 1 (cur * 180 / piV) } }
  else s

/-- The per-object effect of `world.step` followed by the transform copy:
the body receives the step (with the delta-time the code passed), then
`mesh.position.copy(body.position)` and `mesh.quaternion.copy(body.quaternion)`. -/
def stepObj (stepFn : ℚ → Body → Body) (dt : ℚ) (o : SimObject) : SimObject :=
  match o.body, o.mesh with
  | some b, some m =>
    let b' := stepFn dt b
    { o with body := some b'
             mesh := some { m with position := b'.position
                                   quaternion := b'.quaternion } }
  | _, _ => o

/-- Method `updatePhysics()`: if the world exists, step it with the current
`deltaTime` (every body receives the step), copy each body's position and
quaternion onto its mesh, then run `updateRobot`. -/
def updatePhysics (stepFn : ℚ → Body → Body) (piV : ℚ) (s : SimState) :
    SimState :=
  if s.worldPresent = false then s
  else
    let s1 := { s with objects := s.objects.map (stepObj stepFn s.deltaTime) }
    updateRobot piV s1

/-- The velocity arrow `updateVectors` builds for one object. -/
def velArrow (sq : ℚ → ℚ) (nid : Nat) (b : Body) : Arrow :=
  { id := nid
    dir := normalizeV sq b.velocity
    origin := b.position
    len := sq (normSq b.velocity) * 0.5
    color := 0x00ffd1 }

/-- The momentum arrow `updateVectors` builds for one object. -/
def momArrow (sq : ℚ → ℚ) (nid : Nat) (b : Body) (mass : ℚ) : Arrow :=
  let p : Vec3 := ⟨b.velocity.x * mass, b.velocity.y * mass, b.velocity.z * mass⟩
  { id := nid
    dir := normalizeV sq p
    origin := b.position
    len := sq (normSq p) * 0.02
    color := 0xffaa00 }

/-- The vector entries one object contributes (speed guard, then one arrow
per enabled flag), with fresh ids starting at `nid`. -/
def arrowsFor (sq : ℚ → ℚ) (sv sm : Bool) (nid : Nat) (o : SimObject) :
    List VectorEntry :=
  match o.body with
  | none => []
  | some b =>
    if 0.1 < sq (normSq b.velocity) then
      (if sv then [⟨some (velArrow sq nid b), VType.velocity⟩] else []) ++
      (if sm then
        [⟨some (momArrow sq (if sv then nid + 1 else nid) b o.mass),
          VType.momentum⟩]
       else [])
    else []

/-- Generate the whole new `vectors` list and the next free id. -/
def genVectors (sq : ℚ → ℚ) (sv sm : Bool) :
    List SimObject → Nat → List VectorEntry × Nat
  | [], nid => ([], nid)
  | o :: os, nid =>
    let here := arrowsFor sq sv sm nid o
    let rest := genVectors sq sv sm os (nid + here.length)
    (here ++ rest.1, rest.2)

/-- Embedding of `library.remove(handle)`: erase the handle's id (if the reference is
non-null) from an id list; removal happens once, as in THREE/CANNON. -/
def eraseKey {α : Type} (key : α → Option Nat) (sc : List Nat) (x : α) :
    List Nat :=
  match key x with
  | some k => sc.erase k
  | none => sc

/-- The mesh handle id of an object entry. -/
def meshId (o : SimObject) : Option Nat := o.mesh.map (fun m => m.id)

/-- The body handle id of an object entry. -/
def bodyId (o : SimObject) : Option Nat := o.body.map (fun b => b.id)

/-- The arrow handle id of a vector entry. -/
def arrowId (v : VectorEntry) : Option Nat := v.arrow.map (fun a => a.id)

/-- Method `updateVectors()`: remove every old arrow from the scene, then rebuild
the list from the current objects and flags, adding each new arrow to the
scene. -/
def updateVectors (sq : ℚ → ℚ) (s : SimState) : SimState :=
  let cleaned := s.vectors.foldl (eraseKey arrowId) s.scene
  let gen := genVectors sq s.showVelocityVectors s.showMomentumVectors
    s.objects s.nextId
  { s with
    vectors := gen.1
    scene := cleaned ++ (gen.1.filterMap (fun v => v.arrow)).map (fun a => a.id)
    nextId := gen.2 }

/-- The speed `updateStatistics` computes for one object. -/
def objSpeed (sq : ℚ → ℚ) (o : SimObject) : ℚ :=
  match o.body with
  | some b => sq (normSq b.velocity)
  | none => 0

/-- Kinetic plus potential energy of one object as the source computes it. -/
def objEnergy (sq : ℚ → ℚ) (gravity : ℚ) (o : SimObject) : ℚ :=
  let speed := objSpeed sq o
  let py : ℚ := match o.body with | some b => b.position.y | none => 0
  0.5 * o.mass * speed * speed + o.mass * |gravity| * py

/-- Method `updateStatistics()`: skipped when there are no objects; otherwise write
the velocity / energy aggregates (through `toFixed(2)`) and the object
count. -/
def updateStatistics (sq : ℚ → ℚ) (s : SimState) : SimState :=
  if s.objects.length = 0 then s
  else
    let totalSpeed := (s.objects.map (objSpeed sq)).sum
    let maxSpeed := (s.objects.map (objSpeed sq)).foldl max 0
    let totalEnergy := (s.objects.map (objEnergy sq s.config.gravity)).sum
    { s with stats :=
        { s.stats with
          maxVelocity := toFixedQ 2 maxSpeed
          avgVelocity := toFixedQ 2 (totalSpeed / s.objects.length)
          totalEnergy := toFixedQ 2 totalEnergy
          activeObjects := (s.objects.length : ℚ) } }

/-- Method `reset()`: pause, zero the clock, detach every object's mesh from the
scene and body from the world, empty both lists, restore the all-zero stats
record, and reset the robot (`resetRobot` zeroes the angles and deactivates;
it does not touch the group's accumulated rotation). -/
def reset (s : SimState) : SimState :=
  let scene1 := s.objects.foldl (eraseKey meshId) s.scene
  let world1 := s.objects.foldl (eraseKey bodyId) s.worldBodies
  let scene2 := s.vectors.foldl (eraseKey arrowId) scene1
  { s with
    isRunning := false
    simulationTime := 0
    scene := scene2
    worldBodies := world1
    objects := []
    vectors := []
    stats := initialStats
    robot := { s.robot with currentAngle := 0, targetAngle := 0,
                            isActive := false } }

/-- Method `step()`: only when paused, run one `updatePhysics` and advance the
clock by `deltaTime`. -/
def step (stepFn : ℚ → Body → Body) (piV : ℚ) (s : SimState) : SimState :=
  if s.isRunning then s
  else
    let s1 := updatePhysics stepFn piV s
    { s1 with simulationTime := s1.simulationTime + s1.deltaTime }

/-- Method `resetRobot()` (also used by `reset`). -/
def resetRobot (s : SimState) : SimState :=
  { s with robot := { s.robot with currentAngle := 0, targetAngle := 0,
                                   isActive := false } }

/-- Method `optimizeLayout()`: write `Math.floor(r * 30 + 70)` into the
damage-reduction statistic; `r` is the `Math.random()` draw. -/
def optimizeLayout (r : ℚ) (s : SimState) : SimState :=
  { s with stats := { s.stats with damageReduction := (⌊r * 30 + 70⌋ : ℚ) } }

/-- Method `optimizeTrajectory()`: write `Math.floor(r * 30 + 70)` into the
trajectory-efficiency statistic. -/
def optimizeTrajectory (r : ℚ) (s : SimState) : SimState :=
  { s with stats :=
      { s.stats with trajectoryEfficiency := (⌊r * 30 + 70⌋ : ℚ) } }

/-- Method `onCanvasClick`: ignored unless running; otherwise the raycast result
`hit` (id of the first intersected mesh, an external computation) selects the
clicked object, which receives a random impulse scaled by `config.impulse`. -/
def onCanvasClick (hit : Option Nat) (rx rz : ℚ) (s : SimState) : SimState :=
  if s.isRunning = false then s
  else
    match hit with
    | none => s
    | some mid =>
      match s.objects.findIdx? (fun o =>
          match o.mesh with | some m => m.id == mid | none => false) with
      | none => s
      | some i =>
        match s.objects[i]? with
        | none => s
        | some o =>
          let imp : Vec3 :=
            ⟨(rx - 0.5) * s.config.impulse, s.config.impulse,
             (rz - 0.5) * s.config.impulse⟩
          let o' := { o with body := o.body.map (applyImpulseCenter imp) }
          { s with objects := s.objects.set i o' }

/-- Key codes the handler distinguishes. -/
inductive KeyCode where
  | space
  | keyR
  | keyO
  | keyT
  | other
deriving DecidableEq, Repr

/-- Method `onKeyPress`: space toggles run state; Ctrl+R resets; Ctrl+O / Ctrl+T run
the optimize actions (`r` is their random draw). -/
def onKeyPress (code : KeyCode) (ctrl : Bool) (r : ℚ) (s : SimState) :
    SimState :=
  match code with
  | .space => if s.isRunning then pause s else play s
  | .keyR => if ctrl then reset s else s
  | .keyO => if ctrl then optimizeLayout r s else s
  | .keyT => if ctrl then optimizeTrajectory r s else s
  | .other => s

/-- One press of the play button, the pause button, or the space key. -/
inductive PPOp where
  | play
  | pause
  | space
deriving DecidableEq, Repr

/-- Run one pause/play action. -/
def applyPP : PPOp → SimState → SimState
  | .play, s => play s
  | .pause, s => pause s
  | .space, s => onKeyPress .space false 0 s

/-- Run a sequence of pause/play actions, first one first. -/
def applyPPs : List PPOp → SimState → SimState
  | [], s => s
  | op :: ops, s => applyPPs ops (applyPP op s)

/-- One iteration of the `animate` loop in `startLoop`: when running, step
physics and the clock and (every 10th frame) rebuild the vectors; render;
overwrite `deltaTime` with the measured wall-clock render duration `w`;
run the UI update (whose only state effect is `updateStatistics`); bump the
frame counter. -/
def frame (stepFn : ℚ → Body → Body) (piV : ℚ) (sq : ℚ → ℚ) (w : ℚ)
    (s : SimState) : SimState :=
  let s1 :=
    if s.isRunning then
      let sa := updatePhysics stepFn piV s
      let sb := { sa with simulationTime := sa.simulationTime + sa.deltaTime }
      if sb.frameCount % 10 = 0 then updateVectors sq sb else sb
    else s
  let s2 := { s1 with deltaTime := w }
  let s3 := updateStatistics sq s2
  { s3 with frameCount := s3.frameCount + 1 }

/-- The change handler of the velocity-vector checkbox. -/
def onToggleVelocityVectors (checked : Bool) (sq : ℚ → ℚ) (s : SimState) :
    SimState :=
  updateVectors sq { s with showVelocityVectors := checked }

/-- The change handler of the momentum-vector checkbox. -/
def onToggleMomentumVectors (checked : Bool) (sq : ℚ → ℚ) (s : SimState) :
    SimState :=
  updateVectors sq { s with showMomentumVectors := checked }

/-! ### Derived notions used by the statements, and concrete sample states -/

/-- Remaining difference from the robot's current angle to the target angle
`config.rotation * π / 180` after `n` calls of `updateRobot`. -/
def robotGap (piV : ℚ) (s : SimState) (n : ℕ) : ℚ :=
  s.config.rotation * piV / 180 - ((updateRobot piV)^[n] s).robot.currentAngle

/-- A well-formed spawned entry: both handles non-null, and paired at
creation (the mesh handle is the one allocated right after the body's). -/
def spawnedOk (o : SimObject) : Prop :=
  (∃ b, o.body = some b) ∧ (∃ m, o.mesh = some m) ∧
    ∀ b m, o.body = some b → o.mesh = some m → m.id = b.id + 1

/-- The geometric content of an arrow: everything except its handle id. -/
def arrowSpec (a : Arrow) : Vec3 × Vec3 × ℚ × Nat :=
  (a.dir, a.origin, a.len, a.color)

/-- The geometric content of the arrows of one type, in order. -/
def typeSpecs (t : VType) (vs : List VectorEntry) :
    List (Option (Vec3 × Vec3 × ℚ × Nat)) :=
  (vs.filter (fun v => v.type == t)).map (fun v => v.arrow.map arrowSpec)

/-- All-zero random draws, a concrete spawn input. -/
def spawnRand0 : SpawnRand := ⟨0, 0, 0, 0, 0, 0, 0, 0⟩

/-- A concrete spawned body (for sample states). -/
def bodyW : Body :=
  { id := 0, position := ⟨0, 0, 0⟩, velocity := ⟨0, 0, 0⟩
    quaternion := Quat.ident, mass := 5, friction := 0.3
    restitution := 0.6, shape := .sphere 1 }

/-- A concrete spawned mesh (for sample states). -/
def meshW : Mesh :=
  { id := 1, position := ⟨0, 0, 0⟩, quaternion := Quat.ident
    colorHue := 0, geom := .sphere 1 }

/-- A reachable-shaped state holding one spawned sphere. -/
def stateW : SimState :=
  { initialState with
    scene := [1]
    worldBodies := [0]
    worldPresent := true
    objects := [⟨some bodyW, some meshW, .sphere, 5⟩]
    nextId := 2 }

/-- State `stateW`, running, mid-loop. -/
def runStateW : SimState := { stateW with isRunning := true, frameCount := 1 }

/-- The constructor state with the robot activated. -/
def robotOnState : SimState :=
  { initialState with robot := { initialRobot with isActive := true } }

/-- A step function that records the delta-time it was called with in the
body's x coordinate (used to observe which delta the loop passes). -/
def recStep : ℚ → Body → Body :=
  fun dt b => { b with position := ⟨dt, 0, 0⟩ }

/-! ### Preservation lemmas for the individual methods -/

@[simp] lemma updateRobot_config (piV : ℚ) (s : SimState) :
    (updateRobot piV s).config = s.config := by
  unfold updateRobot; split <;> rfl

@[simp] lemma updateRobot_isActive (piV : ℚ) (s : SimState) :
    (updateRobot piV s).robot.isActive = s.robot.isActive := by
  unfold updateRobot; split <;> rfl

@[simp] lemma updateRobot_objects (piV : ℚ) (s : SimState) :
    (updateRobot piV s).objects = s.objects := by
  unfold updateRobot; split <;> rfl

@[simp] lemma updateRobot_deltaTime (piV : ℚ) (s : SimState) :
    (updateRobot piV s).deltaTime = s.deltaTime := by
  unfold updateRobot; split <;> rfl

@[simp] lemma updateRobot_simulationTime (piV : ℚ) (s : SimState) :
    (updateRobot piV s).simulationTime = s.simulationTime := by
  unfold updateRobot; split <;> rfl

@[simp] lemma updateRobot_isRunning (piV : ℚ) (s : SimState) :
    (updateRobot piV s).isRunning = s.isRunning := by
  unfold updateRobot; split <;> rfl

@[simp] lemma updateRobot_worldPresent (piV : ℚ) (s : SimState) :
    (updateRobot piV s).worldPresent = s.worldPresent := by
  unfold updateRobot; split <;> rfl

@[simp] lemma updateRobot_frameCount (piV : ℚ) (s : SimState) :
    (updateRobot piV s).frameCount = s.frameCount := by
  unfold updateRobot; split <;> rfl

@[simp] lemma updateVectors_objects (sq : ℚ → ℚ) (s : SimState) :
    (updateVectors sq s).objects = s.objects := rfl

@[simp] lemma updateVectors_deltaTime (sq : ℚ → ℚ) (s : SimState) :
    (updateVectors sq s).deltaTime = s.deltaTime := rfl

@[simp] lemma updateVectors_isRunning (sq : ℚ → ℚ) (s : SimState) :
    (updateVectors sq s).isRunning = s.isRunning := rfl

@[simp] lemma updateStatistics_objects (sq : ℚ → ℚ) (s : SimState) :
    (updateStatistics sq s).objects = s.objects := by
  unfold updateStatistics; split <;> rfl

@[simp] lemma updateStatistics_deltaTime (sq : ℚ → ℚ) (s : SimState) :
    (updateStatistics sq s).deltaTime = s.deltaTime := by
  unfold updateStatistics; split <;> rfl

@[simp] lemma updateStatistics_isRunning (sq : ℚ → ℚ) (s : SimState) :
    (updateStatistics sq s).isRunning = s.isRunning := by
  unfold updateStatistics; split <;> rfl

@[simp] lemma updatePhysics_deltaTime (f : ℚ → Body → Body) (piV : ℚ)
    (s : SimState) : (updatePhysics f piV s).deltaTime = s.deltaTime := by
  unfold updatePhysics; split
  · rfl
  · simp

@[simp] lemma updatePhysics_simulationTime (f : ℚ → Body → Body) (piV : ℚ)
    (s : SimState) :
    (updatePhysics f piV s).simulationTime = s.simulationTime := by
  unfold updatePhysics; split
  · rfl
  · simp

@[simp] lemma updatePhysics_isRunning (f : ℚ → Body → Body) (piV : ℚ)
    (s : SimState) : (updatePhysics f piV s).isRunning = s.isRunning := by
  unfold updatePhysics; split
  · rfl
  · simp

@[simp] lemma updatePhysics_frameCount (f : ℚ → Body → Body) (piV : ℚ)
    (s : SimState) : (updatePhysics f piV s).frameCount = s.frameCount := by
  unfold updatePhysics; split
  · rfl
  · simp

lemma updatePhysics_objects_present (f : ℚ → Body → Body) (piV : ℚ)
    (s : SimState) (hw : s.worldPresent = true) :
    (updatePhysics f piV s).objects = s.objects.map (stepObj f s.deltaTime) := by
  unfold updatePhysics
  rw [if_neg (by simp [hw])]
  simp

/-! ### C1: optimize actions assign a random placeholder percentage -/

/-- Claim C1: `optimizeLayout` (resp. `optimizeTrajectory`) only assigns
`Math.floor(r * 30 + 70)` — an integer between 70 and 99 inclusive for any
random draw `0 ≤ r < 1` — to `stats.damageReduction` (resp.
`stats.trajectoryEfficiency`); the objects list, vectors list, config and the
other statistics fields are untouched and no computation over the objects or
robot state takes place. -/
theorem optimize_assigns_random_placeholder (r : ℚ) (s : SimState)
    (h0 : 0 ≤ r) (h1 : r < 1) :
    optimizeLayout r s =
      { s with stats :=
          { s.stats with damageReduction := (⌊r * 30 + 70⌋ : ℚ) } } ∧
    optimizeTrajectory r s =
      { s with stats :=
          { s.stats with trajectoryEfficiency := (⌊r * 30 + 70⌋ : ℚ) } } ∧
    (70 : ℤ) ≤ ⌊r * 30 + 70⌋ ∧ ⌊r * 30 + 70⌋ ≤ 99 ∧
    (optimizeLayout r s).objects = s.objects ∧
    (optimizeLayout r s).vectors = s.vectors ∧
    (optimizeLayout r s).config = s.config ∧
    (optimizeLayout r s).robot = s.robot ∧
    (optimizeTrajectory r s).objects = s.objects ∧
    (optimizeTrajectory r s).vectors = s.vectors ∧
    (optimizeTrajectory r s).config = s.config ∧
    (optimizeTrajectory r s).robot = s.robot := by
  refine ⟨rfl, rfl, ?_, ?_, rfl, rfl, rfl, rfl, rfl, rfl, rfl, rfl⟩
  · exact Int.le_floor.mpr (by push_cast; linarith)
  · have h : ⌊r * 30 + 70⌋ < 100 := Int.floor_lt.mpr (by push_cast; linarith)
    omega

/-- Witness for C1 at `r = 0` and the constructor state. -/
theorem optimize_assigns_random_placeholder_witness :
    (0 : ℚ) ≤ 0 ∧ (0 : ℚ) < 1 ∧
    optimizeLayout 0 initialState =
      { initialState with stats :=
          { initialState.stats with
            damageReduction := (⌊(0 : ℚ) * 30 + 70⌋ : ℚ) } } :=
  ⟨le_refl 0, zero_lt_one,
    (optimize_assigns_random_placeholder 0 initialState (le_refl 0)
      zero_lt_one).1⟩

/-! ### C6: the dependency check is performed and then ignored -/

/-- Claim C6: when a required global is missing, `checkDependencies` emits a
console error and an alert and returns `false`; the constructor discards that
result, builds the same state either way, and unconditionally calls
`init()`. -/
theorem constructor_ignores_dependency_check (t c : Bool) :
    Effect.initCalled ∈ (construct t c).2 ∧
    (construct t c).1 = initialState ∧
    (t = false →
      checkDependencies t c =
        (false, [Effect.consoleError "Three.js no está cargado",
                 Effect.alert "Error: Three.js no está disponible"])) ∧
    (t = true → c = false →
      checkDependencies t c =
        (false, [Effect.consoleError "Cannon.js no está cargado",
                 Effect.alert "Error: Cannon.js no está disponible"])) := by
  cases t <;> cases c <;> simp [construct, checkDependencies]

/-- Witness for C6 with Three.js missing. -/
theorem constructor_ignores_dependency_check_witness :
    checkDependencies false true =
      (false, [Effect.consoleError "Three.js no está cargado",
               Effect.alert "Error: Three.js no está disponible"]) ∧
    Effect.initCalled ∈ (construct false true).2 :=
  ⟨(constructor_ignores_dependency_check false true).2.2.1 rfl,
   (constructor_ignores_dependency_check false true).1⟩

/-! ### C8: pause/play sequences change only the run flag -/

lemma applyPP_only_isRunning (op : PPOp) (s : SimState) :
    ∃ b, applyPP op s = { s with isRunning := b } := by
  cases op with
  | play => exact ⟨true, rfl⟩
  | pause => exact ⟨false, rfl⟩
  | space =>
    by_cases hr : s.isRunning
    · exact ⟨false, by simp [applyPP, onKeyPress, hr, pause]⟩
    · exact ⟨true, by simp [applyPP, onKeyPress, hr, play]⟩

/-- Claim C8: any finite sequence of `pause()`, `play()` and space-key
presses changes at most the `isRunning` flag: the result equals the initial
state with only that field replaced (so objects, bodies, meshes, vectors,
config and stats are untouched). -/
theorem pause_play_only_isRunning (ops : List PPOp) (s : SimState) :
    applyPPs ops s = { s with isRunning := (applyPPs ops s).isRunning } := by
  induction ops generalizing s with
  | nil => rfl
  | cons op ops ih =>
    obtain ⟨b, hb⟩ := applyPP_only_isRunning op s
    have h1 : applyPPs (op :: ops) s = applyPPs ops { s with isRunning := b } := by
      show applyPPs ops (applyPP op s) = _
      rw [hb]
    rw [h1, ih { s with isRunning := b }]

/-! ### C9: the single-step action only acts when paused -/

/-- Claim C9: `step()` is a no-op while the simulation runs; when paused it
performs exactly one `updatePhysics` pass and adds the current `deltaTime`
to the simulation clock. -/
theorem step_only_when_paused (f : ℚ → Body → Body) (piV : ℚ) (s : SimState) :
    (s.isRunning = true → step f piV s = s) ∧
    (s.isRunning = false →
      step f piV s =
        { updatePhysics f piV s with
          simulationTime := s.simulationTime + s.deltaTime }) := by
  constructor
  · intro h; unfold step; simp [h]
  · intro h; unfold step; simp [h]

/-- Witness for C9 at the paused constructor state. -/
theorem step_only_when_paused_witness :
    step (fun _ b => b) 3 initialState =
      { updatePhysics (fun _ b => b) 3 initialState with
        simulationTime := initialState.simulationTime +
          initialState.deltaTime } :=
  (step_only_when_paused (fun _ b => b) 3 initialState).2 rfl

/-! ### C10: canvas clicks are ignored while paused -/

/-- Claim C10: `onCanvasClick` returns immediately whenever the simulation
is paused — no body, object entry or statistic changes, whatever the raycast
would have hit — so an impulse can only be injected while running. -/
theorem canvas_click_requires_running (hit : Option Nat) (rx rz : ℚ)
    (s : SimState) (h : s.isRunning = false) :
    onCanvasClick hit rx rz s = s := by
  unfold onCanvasClick
  simp [h]

/-- Witness for C10 at the paused constructor state with a raycast hit. -/
theorem canvas_click_requires_running_witness :
    onCanvasClick (some 0) 0 0 initialState = initialState :=
  canvas_click_requires_running (some 0) 0 0 initialState rfl

/-! ### C3: the robot angle converges monotonically to its target -/

lemma updateRobot_iterate_config (piV : ℚ) (s : SimState) (n : ℕ) :
    ((updateRobot piV)^[n] s).config = s.config := by
  induction n with
  | zero => rfl
  | succ n ih => rw [Function.iterate_succ_apply', updateRobot_config, ih]

lemma updateRobot_iterate_isActive (piV : ℚ) (s : SimState) (n : ℕ) :
    ((updateRobot piV)^[n] s).robot.isActive = s.robot.isActive := by
  induction n with
  | zero => rfl
  | succ n ih => rw [Function.iterate_succ_apply', updateRobot_isActive, ih]

lemma updateRobot_currentAngle_active (piV : ℚ) (s : SimState)
    (h : s.robot.isActive = true) :
    (updateRobot piV s).robot.currentAngle =
      s.robot.currentAngle +
        (s.config.rotation * piV / 180 - s.robot.currentAngle) * 0.05 := by
  unfold updateRobot; simp [h]

lemma updateRobot_targetAngle_active (piV : ℚ) (s : SimState)
    (h : s.robot.isActive = true) :
    (updateRobot piV s).robot.targetAngle = s.config.rotation * piV / 180 := by
  unfold updateRobot; simp [h]

/-- Claim C3: while the robot is active (`config.rotation` is untouched by
`updateRobot`, hence fixed), every step sets the target to
`config.rotation * π / 180` and moves `currentAngle` by 0.05 of the
remaining difference; the remaining gap scales by 19/20 each step, so its
absolute value never increases and its sign never flips (no overshoot). -/
theorem robot_angle_monotone_approach (piV : ℚ) (s : SimState)
    (h : s.robot.isActive = true) :
    (∀ n, ((updateRobot piV)^[n + 1] s).robot.targetAngle =
        s.config.rotation * piV / 180) ∧
    (∀ n, ((updateRobot piV)^[n + 1] s).robot.currentAngle =
        ((updateRobot piV)^[n] s).robot.currentAngle +
          (s.config.rotation * piV / 180 -
            ((updateRobot piV)^[n] s).robot.currentAngle) * 0.05) ∧
    (∀ n, robotGap piV s (n + 1) = robotGap piV s n * (19 / 20)) ∧
    (∀ n, |robotGap piV s (n + 1)| ≤ |robotGap piV s n|) ∧
    (∀ n, 0 ≤ robotGap piV s n ↔ 0 ≤ robotGap piV s (n + 1)) := by
  have hA : ∀ n, ((updateRobot piV)^[n] s).robot.isActive = true := by
    intro n; rw [updateRobot_iterate_isActive]; exact h
  have hstep : ∀ n, robotGap piV s (n + 1) = robotGap piV s n * (19 / 20) := by
    intro n
    unfold robotGap
    rw [Function.iterate_succ_apply',
      updateRobot_currentAngle_active piV _ (hA n), updateRobot_iterate_config]
    have h005 : (0.05 : ℚ) = 1 / 20 := by norm_num
    rw [h005]; ring
  refine ⟨?_, ?_, hstep, ?_, ?_⟩
  · intro n
    rw [Function.iterate_succ_apply',
      updateRobot_targetAngle_active piV _ (hA n), updateRobot_iterate_config]
  · intro n
    rw [Function.iterate_succ_apply',
      updateRobot_currentAngle_active piV _ (hA n), updateRobot_iterate_config]
  · intro n
    rw [hstep n, abs_mul]
    have h19 : |(19 / 20 : ℚ)| = 19 / 20 := by norm_num
    rw [h19]
    exact mul_le_of_le_one_right (abs_nonneg _) (by norm_num)
  · intro n
    rw [hstep n]
    constructor
    · intro hg; exact mul_nonneg hg (by norm_num)
    · intro hg; nlinarith

/-- Witness for C3: one step at an activated state does not increase the
gap. -/
theorem robot_angle_monotone_approach_witness :
    |robotGap 3 robotOnState 1| ≤ |robotGap 3 robotOnState 0| :=
  (robot_angle_monotone_approach 3 robotOnState rfl).2.2.2.1 0

/-! ### C2: reset clears everything -/

lemma eraseKey_subset {α : Type} (key : α → Option Nat) :
    ∀ (l : List α) (sc : List Nat) (a : Nat),
      a ∈ l.foldl (eraseKey key) sc → a ∈ sc := by
  intro l
  induction l with
  | nil => intro sc a hmem; exact hmem
  | cons x xs ih =>
    intro sc a hmem
    rw [List.foldl_cons] at hmem
    have h1 : a ∈ eraseKey key sc x := ih _ _ hmem
    unfold eraseKey at h1
    split at h1
    · exact List.mem_of_mem_erase h1
    · exact h1

lemma eraseKey_nodup {α : Type} (key : α → Option Nat) (sc : List Nat)
    (x : α) (h : sc.Nodup) : (eraseKey key sc x).Nodup := by
  unfold eraseKey; split
  · exact h.erase _
  · exact h

lemma eraseKey_foldl_not_mem {α : Type} (key : α → Option Nat) :
    ∀ (l : List α) (sc : List Nat), sc.Nodup →
      ∀ x ∈ l, ∀ k, key x = some k → k ∉ l.foldl (eraseKey key) sc := by
  intro l
  induction l with
  | nil =>
    intro sc _ x hx k _ _
    exact absurd hx (List.not_mem_nil x)
  | cons y ys ih =>
    intro sc hnd x hx k hk hmem
    rw [List.foldl_cons] at hmem
    rcases List.mem_cons.mp hx with hxy | hxs
    · subst hxy
      have h1 : k ∈ eraseKey key sc x := eraseKey_subset key ys _ k hmem
      have he : eraseKey key sc x = sc.erase k := by
        unfold eraseKey; rw [hk]
      rw [he] at h1
      exact ((List.Nodup.mem_erase_iff hnd).mp h1).1 rfl
    · exact ih (eraseKey key sc y) (eraseKey_nodup key sc y hnd) x hxs k hk hmem

lemma reset_scene (s : SimState) :
    (reset s).scene =
      s.vectors.foldl (eraseKey arrowId)
        (s.objects.foldl (eraseKey meshId) s.scene) := rfl

lemma reset_worldBodies (s : SimState) :
    (reset s).worldBodies = s.objects.foldl (eraseKey bodyId) s.worldBodies :=
  rfl

/-- Claim C2: on any state with duplicate-free handle lists (as every
reachable state has, ids being allocated fresh), `reset()` empties the
objects and vectors lists, removes every paired mesh from the scene and
every paired body from the world, restores the all-zero stats record, zeroes
the clock, pauses, and resets the robot. -/
theorem reset_clears_state (s : SimState)
    (hs : s.scene.Nodup) (hw : s.worldBodies.Nodup) :
    (reset s).objects = [] ∧
    (reset s).vectors = [] ∧
    (reset s).stats = initialStats ∧
    (reset s).stats = ⟨0, 0, 0, 0, 0, 0, 0, 0, 0⟩ ∧
    (reset s).simulationTime = 0 ∧
    (reset s).isRunning = false ∧
    (reset s).robot.currentAngle = 0 ∧
    (reset s).robot.targetAngle = 0 ∧
    (reset s).robot.isActive = false ∧
    (∀ o ∈ s.objects, ∀ m, o.mesh = some m → m.id ∉ (reset s).scene) ∧
    (∀ o ∈ s.objects, ∀ b, o.body = some b → b.id ∉ (reset s).worldBodies) := by
  refine ⟨rfl, rfl, rfl, rfl, rfl, rfl, rfl, rfl, rfl, ?_, ?_⟩
  · intro o ho m hm hmem
    rw [reset_scene] at hmem
    have h1 : m.id ∈ s.objects.foldl (eraseKey meshId) s.scene :=
      eraseKey_subset arrowId s.vectors _ m.id hmem
    exact eraseKey_foldl_not_mem meshId s.objects s.scene hs o ho m.id
      (by simp [meshId, hm]) h1
  · intro o ho b hb hmem
    rw [reset_worldBodies] at hmem
    exact eraseKey_foldl_not_mem bodyId s.objects s.worldBodies hw o ho b.id
      (by simp [bodyId, hb]) hmem

/-- Witness for C2 at a state holding one spawned sphere. -/
theorem reset_clears_state_witness :
    (reset stateW).objects = [] ∧ (reset stateW).vectors = [] :=
  ⟨(reset_clears_state stateW (by decide) (by decide)).1,
   (reset_clears_state stateW (by decide) (by decide)).2.1⟩

/-! ### C4: spawning N objects yields N well-paired entries -/

lemma applyImpulseCenter_id (imp : Vec3) (b : Body) :
    (applyImpulseCenter imp b).id = b.id := by
  unfold applyImpulseCenter; split <;> rfl

lemma pushSpawned_spec (s : SimState) (body : Body) (mesh : Mesh)
    (t : ObjType) (rnd : SpawnRand) (hid : mesh.id = body.id + 1) :
    (pushSpawned s body mesh t rnd).objects =
      s.objects ++
        [⟨some (applyImpulseCenter (spawnImpulse rnd) body), some mesh, t,
          s.config.mass⟩] ∧
    spawnedOk ⟨some (applyImpulseCenter (spawnImpulse rnd) body), some mesh,
      t, s.config.mass⟩ ∧
    (pushSpawned s body mesh t rnd).stats.activeObjects =
      s.stats.activeObjects + 1 := by
  refine ⟨rfl, ⟨⟨_, rfl⟩, ⟨_, rfl⟩, ?_⟩, rfl⟩
  intro b m hb hm
  injection hb with hb
  injection hm with hm
  subst hb; subst hm
  rw [applyImpulseCenter_id]
  exact hid

lemma applySpawn_spec (op : SpawnOp) (s : SimState) :
    ∃ o', (applySpawn op s).objects = s.objects ++ [o'] ∧ spawnedOk o' ∧
      (applySpawn op s).stats.activeObjects = s.stats.activeObjects + 1 := by
  cases op with
  | box rnd => exact ⟨_, pushSpawned_spec s _ _ .box rnd rfl⟩
  | sphere rnd => exact ⟨_, pushSpawned_spec s _ _ .sphere rnd rfl⟩
  | cylinder rnd => exact ⟨_, pushSpawned_spec s _ _ .cylinder rnd rfl⟩

lemma applySpawns_spec (ops : List SpawnOp) :
    ∀ s : SimState,
      (applySpawns ops s).objects.length = s.objects.length + ops.length ∧
      (applySpawns ops s).stats.activeObjects =
        s.stats.activeObjects + (ops.length : ℚ) ∧
      ∀ o ∈ (applySpawns ops s).objects, o ∈ s.objects ∨ spawnedOk o := by
  induction ops with
  | nil => exact fun s => ⟨rfl, by simp [applySpawns], fun o ho => Or.inl ho⟩
  | cons op ops ih =>
    intro s
    obtain ⟨o', hobj, hok, hstat⟩ := applySpawn_spec op s
    obtain ⟨ihlen, ihstat, ihmem⟩ := ih (applySpawn op s)
    refine ⟨?_, ?_, ?_⟩
    · show (applySpawns ops (applySpawn op s)).objects.length = _
      rw [ihlen, hobj]
      simp [List.length_append]
      omega
    · show (applySpawns ops (applySpawn op s)).stats.activeObjects = _
      rw [ihstat, hstat]
      simp only [List.length_cons]
      push_cast
      ring
    · intro o ho
      rcases ihmem o ho with hmem | hok2
      · rw [hobj] at hmem
        rcases List.mem_append.mp hmem with h1 | h2
        · exact Or.inl h1
        · right
          rw [List.mem_singleton] at h2
          subst h2
          exact hok
      · exact Or.inr hok2

/-- Claim C4: any sequence of `N` spawn operations from an empty objects
list yields exactly `N` entries, each with non-null, creation-paired body
and mesh handles, and `stats.activeObjects` is incremented once per
spawn. -/
theorem spawn_sequence_invariant (ops : List SpawnOp) (s : SimState)
    (h : s.objects = []) :
    (applySpawns ops s).objects.length = ops.length ∧
    (applySpawns ops s).stats.activeObjects =
      s.stats.activeObjects + (ops.length : ℚ) ∧
    ∀ o ∈ (applySpawns ops s).objects, spawnedOk o := by
  obtain ⟨hlen, hstat, hmem⟩ := applySpawns_spec ops s
  refine ⟨by rw [hlen, h]; simp, hstat, ?_⟩
  intro o ho
  rcases hmem o ho with hin | hok
  · rw [h] at hin
    exact absurd hin (List.not_mem_nil o)
  · exact hok

/-- Witness for C4: one box spawn from the constructor state. -/
theorem spawn_sequence_invariant_witness :
    (applySpawns [SpawnOp.box spawnRand0] initialState).objects.length = 1 :=
  (spawn_sequence_invariant [SpawnOp.box spawnRand0] initialState rfl).1

/-! ### C7: toggling a vector checkbox only changes that vector set -/

lemma typeSpecs_append (t : VType) (l1 l2 : List VectorEntry) :
    typeSpecs t (l1 ++ l2) = typeSpecs t l1 ++ typeSpecs t l2 := by
  unfold typeSpecs
  rw [List.filter_append, List.map_append]

lemma arrowsFor_momentum_specs (sq : ℚ → ℚ) (sm : Bool) (o : SimObject)
    (sv sv' : Bool) (n n' : Nat) :
    typeSpecs .momentum (arrowsFor sq sv sm n o) =
      typeSpecs .momentum (arrowsFor sq sv' sm n' o) := by
  unfold arrowsFor
  cases o.body with
  | none => rfl
  | some b =>
    dsimp only
    by_cases hsp : (0.1 : ℚ) < sq (normSq b.velocity)
    · rw [if_pos hsp, if_pos hsp]
      cases sm <;> cases sv <;> cases sv' <;> rfl
    · rw [if_neg hsp, if_neg hsp]

lemma arrowsFor_velocity_specs (sq : ℚ → ℚ) (sv : Bool) (o : SimObject)
    (sm sm' : Bool) (n n' : Nat) :
    typeSpecs .velocity (arrowsFor sq sv sm n o) =
      typeSpecs .velocity (arrowsFor sq sv sm' n' o) := by
  unfold arrowsFor
  cases o.body with
  | none => rfl
  | some b =>
    dsimp only
    by_cases hsp : (0.1 : ℚ) < sq (normSq b.velocity)
    · rw [if_pos hsp, if_pos hsp]
      cases sv <;> cases sm <;> cases sm' <;> rfl
    · rw [if_neg hsp, if_neg hsp]

lemma genVectors_cons (sq : ℚ → ℚ) (sv sm : Bool) (o : SimObject)
    (os : List SimObject) (n : Nat) :
    (genVectors sq sv sm (o :: os) n).1 =
      arrowsFor sq sv sm n o ++
        (genVectors sq sv sm os (n + (arrowsFor sq sv sm n o).length)).1 :=
  rfl

lemma genVectors_momentum_specs (sq : ℚ → ℚ) (sm : Bool) :
    ∀ (objs : List SimObject) (sv sv' : Bool) (n n' : Nat),
      typeSpecs .momentum (genVectors sq sv sm objs n).1 =
        typeSpecs .momentum (genVectors sq sv' sm objs n').1 := by
  intro objs
  induction objs with
  | nil => intro sv sv' n n'; rfl
  | cons o os ih =>
    intro sv sv' n n'
    rw [genVectors_cons, genVectors_cons, typeSpecs_append, typeSpecs_append,
      arrowsFor_momentum_specs sq sm o sv sv' n n', ih sv sv' _ _]

lemma genVectors_velocity_specs (sq : ℚ → ℚ) (sv : Bool) :
    ∀ (objs : List SimObject) (sm sm' : Bool) (n n' : Nat),
      typeSpecs .velocity (genVectors sq sv sm objs n).1 =
        typeSpecs .velocity (genVectors sq sv sm' objs n').1 := by
  intro objs
  induction objs with
  | nil => intro sm sm' n n'; rfl
  | cons o os ih =>
    intro sm sm' n n'
    rw [genVectors_cons, genVectors_cons, typeSpecs_append, typeSpecs_append,
      arrowsFor_velocity_specs sq sv o sm sm' n n', ih sm sm' _ _]

/-- Claim C7: a vector-checkbox change handler leaves the objects list (and
with it every body's position, velocity and quaternion) untouched, and the
rebuilt arrows of the *other* type have exactly the geometric content that
the unchanged flag and the unchanged object states determine (what
`updateVectors` would produce without the toggle). -/
theorem toggle_vectors_frame_effect (checked : Bool) (sq : ℚ → ℚ)
    (s : SimState) :
    (onToggleVelocityVectors checked sq s).objects = s.objects ∧
    (onToggleMomentumVectors checked sq s).objects = s.objects ∧
    typeSpecs .momentum (onToggleVelocityVectors checked sq s).vectors =
      typeSpecs .momentum (updateVectors sq s).vectors ∧
    typeSpecs .velocity (onToggleMomentumVectors checked sq s).vectors =
      typeSpecs .velocity (updateVectors sq s).vectors := by
  refine ⟨rfl, rfl, ?_, ?_⟩
  · exact genVectors_momentum_specs sq s.showMomentumVectors s.objects
      checked s.showVelocityVectors s.nextId s.nextId
  · exact genVectors_velocity_specs sq s.showVelocityVectors s.objects
      checked s.showMomentumVectors s.nextId s.nextId

/-! ### C5: which delta-time the loop feeds to the physics step -/

lemma frame_objects_running (f : ℚ → Body → Body) (piV : ℚ) (sq : ℚ → ℚ)
    (w : ℚ) (s : SimState) (h : s.isRunning = true)
    (hw : s.worldPresent = true) :
    (frame f piV sq w s).objects = s.objects.map (stepObj f s.deltaTime) := by
  unfold frame
  rw [if_pos h]
  dsimp only
  split <;> simp [updatePhysics_objects_present f piV s hw]

lemma frame_deltaTime (f : ℚ → Body → Body) (piV : ℚ) (sq : ℚ → ℚ) (w : ℚ)
    (s : SimState) : (frame f piV sq w s).deltaTime = w := by
  unfold frame
  simp

/-- Claim C5 fails on the code: the loop overwrites `deltaTime` with the
measured wall-clock render duration, and the *next* running frame steps the
physics world with that value, not with the nominal 1/60.  Concretely: after
a running frame whose render took 1/50 s, the following frame calls the step
function with 1/50 (recorded here in the body's x coordinate by `recStep`),
and `1/50 ≠ 1/60`. -/
theorem frame_step_uses_wallclock_delta :
    (frame recStep 3 id (1 / 50) runStateW).deltaTime = 1 / 50 ∧
    (frame recStep 3 id (1 / 50) runStateW).isRunning = true ∧
    ((frame recStep 3 id (1 / 60)
        (frame recStep 3 id (1 / 50) runStateW)).objects.map
      (fun o => o.body.map (fun b => b.position.x)) = [some (1 / 50)]) ∧
    (1 / 50 : ℚ) ≠ 1 / 60 := by
  refine ⟨rfl, rfl, rfl, by norm_num⟩

end Sim
